import Mathlib

/-!
# The Either container of package mo (either.go)

A shallow embedding of `src/either.go` and the properties of its
constructors, inspectors, accessors and combinators.

Conventions of the embedding:

* a Go type parameter is a Lean `Type` carrying its Go zero value (`GoZero`);
* the struct `Either[L, R]` is the structure `Mo.Either L R` with the same four
  fields; Go's `==` on it is Lean's equality of structures (all four fields);
* a Go method `func (e Either[L, R]) M(...)` is `Mo.Either.M e ...`;
* a panic is `Except.error` carrying the message of the error value that the
  code panics with, a normal return is `Except.ok`;
* a side-effecting callback `func(L)` is a state transformer `L → σ → σ` over
  an arbitrary state type `σ`.
-/

namespace Mo

/-- Zero value of a Go type: what a variable of the type holds when nothing was assigned
to it, and what a composite literal gives a field it does not mention. -/
class GoZero (T : Type) where
  /-- The zero value itself. -/
  zero : T

instance : GoZero Int := ⟨0⟩

instance : GoZero String := ⟨""⟩

instance : GoZero Bool := ⟨false⟩

/-- Modelled from the spec: the helper `empty[T]()` that either.go calls is declared in
another file of the package; the spec describes its result as "the zero/default value of
type" T ("numeric zero, empty string, null-equivalent for reference types"). -/
def empty {T : Type} [GoZero T] : T := GoZero.zero

/-- Message of `eitherShouldBeLeftOrRight` (either.go, line 5). -/
def eitherShouldBeLeftOrRight : String := "either should be Left or Right"

/-- Message of `eitherMissingLeftValue` (either.go, line 6). -/
def eitherMissingLeftValue : String := "no such Left value"

/-- Message of `eitherMissingRightValue` (either.go, line 7). -/
def eitherMissingRightValue : String := "no such Right value"

/-- The struct `Either[L, R]` (either.go, lines 29-35). -/
structure Either (L R : Type) where
  /-- Flag of the Left variant. -/
  isLeft : Bool
  /-- Flag of the Right variant. -/
  isRight : Bool
  /-- Payload slot of the Left variant. -/
  left : L
  /-- Payload slot of the Right variant. -/
  right : R
  deriving DecidableEq, Repr

/-- Zero value of the struct: every field is the zero value of its type. -/
instance {L R : Type} [GoZero L] [GoZero R] : GoZero (Either L R) :=
  ⟨{ isLeft := false, isRight := false, left := GoZero.zero, right := GoZero.zero }⟩

/-- `Left` (either.go, lines 10-16): the literal does not mention `right`, which is
therefore the zero value of `R`. -/
def Left {L R : Type} [GoZero R] (value : L) : Either L R :=
  { isLeft := true, isRight := false, left := value, right := GoZero.zero }

/-- `Right` (either.go, lines 19-25): the literal does not mention `left`, which is
therefore the zero value of `L`. -/
def Right {L R : Type} [GoZero L] (value : R) : Either L R :=
  { isLeft := false, isRight := true, left := GoZero.zero, right := value }

/-- `IsLeft` (either.go, lines 38-40). -/
def Either.IsLeft {L R : Type} (e : Either L R) : Bool := e.isLeft

/-- `IsRight` (either.go, lines 43-45). -/
def Either.IsRight {L R : Type} (e : Either L R) : Bool := e.isRight

/-- `Left()` accessor (either.go, lines 48-53); the Go result `(L, bool)` is a pair. -/
def Either.Left {L R : Type} [GoZero L] (e : Either L R) : L × Bool :=
  if e.isLeft then (e.left, true) else (empty, false)

/-- `Right()` accessor (either.go, lines 56-61). -/
def Either.Right {L R : Type} [GoZero R] (e : Either L R) : R × Bool :=
  if e.isRight then (e.right, true) else (empty, false)

/-- `MustLeft` (either.go, lines 64-70): panics with `eitherMissingLeftValue` when the
Left flag is not set. -/
def Either.MustLeft {L R : Type} (e : Either L R) : Except String L :=
  if !e.isLeft then Except.error eitherMissingLeftValue else Except.ok e.left

/-- `MustRight` (either.go, lines 73-79): panics with `eitherMissingRightValue` when the
Right flag is not set. -/
def Either.MustRight {L R : Type} (e : Either L R) : Except String R :=
  if !e.isRight then Except.error eitherMissingRightValue else Except.ok e.right

/-- `LeftOrElse` (either.go, lines 82-88). -/
def Either.LeftOrElse {L R : Type} (e : Either L R) (fallback : L) : L :=
  if e.isLeft then e.left else fallback

/-- `RightOrElse` (either.go, lines 91-97). -/
def Either.RightOrElse {L R : Type} (e : Either L R) (fallback : R) : R :=
  if e.isRight then e.right else fallback

/-- `LeftOrEmpty` (either.go, lines 100-106). -/
def Either.LeftOrEmpty {L R : Type} [GoZero L] (e : Either L R) : L :=
  if e.isLeft then e.left else empty

/-- `RightOrEmpty` (either.go, lines 109-115). -/
def Either.RightOrEmpty {L R : Type} [GoZero R] (e : Either L R) : R :=
  if e.isRight then e.right else empty

/-- `Swap` (either.go, lines 118-124): the only test is on the Left flag. -/
def Either.Swap {L R : Type} [GoZero L] [GoZero R] (e : Either L R) : Either R L :=
  if e.isLeft then Mo.Right e.left else Mo.Left e.right

/-- `ForEach` (either.go, lines 127-133): the callbacks act on a state `σ`; when no flag
is set the state is left as it is. -/
def Either.ForEach {L R σ : Type} (e : Either L R) (leftCb : L → σ → σ)
    (rightCb : R → σ → σ) (s : σ) : σ :=
  if e.isLeft then leftCb e.left s
  else if e.isRight then rightCb e.right s
  else s

/-- `Match` (either.go, lines 136-144): panics with `eitherShouldBeLeftOrRight` when no
flag is set. -/
def Either.Match {L R : Type} (e : Either L R) (onLeft : L → Either L R)
    (onRight : R → Either L R) : Except String (Either L R) :=
  if e.isLeft then Except.ok (onLeft e.left)
  else if e.isRight then Except.ok (onRight e.right)
  else Except.error eitherShouldBeLeftOrRight

/-- `MapLeft` (either.go, lines 147-155). -/
def Either.MapLeft {L R : Type} [GoZero L] (e : Either L R) (mapper : L → Either L R) :
    Except String (Either L R) :=
  if e.isLeft then Except.ok (mapper e.left)
  else if e.isRight then Except.ok (Mo.Right e.right)
  else Except.error eitherShouldBeLeftOrRight

/-- `MapRight` (either.go, lines 158-166). -/
def Either.MapRight {L R : Type} [GoZero R] (e : Either L R) (mapper : R → Either L R) :
    Except String (Either L R) :=
  if e.isLeft then Except.ok (Mo.Left e.left)
  else if e.isRight then Except.ok (mapper e.right)
  else Except.error eitherShouldBeLeftOrRight

/-- One recorded call of a `ForEach` callback, with the argument it received. -/
inductive Call (L R : Type) where
  /-- The left callback was called with this argument. -/
  | leftCb (arg : L) : Call L R
  /-- The right callback was called with this argument. -/
  | rightCb (arg : R) : Call L R
  deriving DecidableEq, Repr

/-- A left callback that does nothing but append its call to the log. -/
def recordLeft {L R : Type} (arg : L) (log : List (Call L R)) : List (Call L R) :=
  log ++ [Call.leftCb arg]

/-- A right callback that does nothing but append its call to the log. -/
def recordRight {L R : Type} (arg : R) (log : List (Call L R)) : List (Call L R) :=
  log ++ [Call.rightCb arg]

/-- `MapLeft` (either.go, lines 147-155) for a mapper that may itself panic: the mapper's
result, panic included, is the result of the call on a Left-populated receiver. On mappers
that do not panic it is `Either.MapLeft`. -/
def Either.MapLeftE {L R : Type} [GoZero L] (e : Either L R)
    (mapper : L → Except String (Either L R)) : Except String (Either L R) :=
  if e.isLeft then mapper e.left
  else if e.isRight then Except.ok (Mo.Right e.right)
  else Except.error eitherShouldBeLeftOrRight

/-- `MapRight` (either.go, lines 158-166) for a mapper that may itself panic: the mapper's
result, panic included, is the result of the call on a Right-populated receiver. On mappers
that do not panic it is `Either.MapRight`. -/
def Either.MapRightE {L R : Type} [GoZero R] (e : Either L R)
    (mapper : R → Except String (Either L R)) : Except String (Either L R) :=
  if e.isLeft then Except.ok (Mo.Left e.left)
  else if e.isRight then mapper e.right
  else Except.error eitherShouldBeLeftOrRight

/-- The call chain `e.MapLeft(f1).MapLeft(f2)...MapLeft(fn)`: each call receives the result
of the one before, and a panic ends the chain. -/
def mapLeftChain {L R : Type} [GoZero L] (e : Either L R) :
    List (L → Either L R) → Except String (Either L R)
  | [] => Except.ok e
  | f :: fs =>
    match e.MapLeft f with
    | Except.ok next => mapLeftChain next fs
    | Except.error err => Except.error err

/-- The call chain `e.MapRight(f1).MapRight(f2)...MapRight(fn)`: each call receives the
result of the one before, and a panic ends the chain. -/
def mapRightChain {L R : Type} [GoZero R] (e : Either L R) :
    List (R → Either L R) → Except String (Either L R)
  | [] => Except.ok e
  | f :: fs =>
    match e.MapRight f with
    | Except.ok next => mapRightChain next fs
    | Except.error err => Except.error err

/-- The reachable instances: the smallest family of sets that contains `Left(v)` and
`Right(r)` and is closed under `Swap` and under the results of `Match`, `MapLeft` and
`MapRight` called with handlers that return reachable instances. -/
inductive Reachable : {L R : Type} → [GoZero L] → [GoZero R] → Either L R → Prop where
  /-- `Left(v)` is reachable. -/
  | ofLeft {L R : Type} [GoZero L] [GoZero R] (v : L) : Reachable (Left v : Either L R)
  /-- `Right(r)` is reachable. -/
  | ofRight {L R : Type} [GoZero L] [GoZero R] (r : R) : Reachable (Right r : Either L R)
  /-- The swap of a reachable instance is reachable. -/
  | ofSwap {L R : Type} [GoZero L] [GoZero R] {e : Either L R} :
      Reachable e → Reachable e.Swap
  /-- What `Match` returns on a reachable instance is reachable. -/
  | ofMatch {L R : Type} [GoZero L] [GoZero R] {e out : Either L R}
      {onLeft : L → Either L R} {onRight : R → Either L R} :
      Reachable e → (∀ x, Reachable (onLeft x)) → (∀ y, Reachable (onRight y)) →
      e.Match onLeft onRight = Except.ok out → Reachable out
  /-- What `MapLeft` returns on a reachable instance is reachable. -/
  | ofMapLeft {L R : Type} [GoZero L] [GoZero R] {e out : Either L R}
      {mapper : L → Either L R} :
      Reachable e → (∀ x, Reachable (mapper x)) →
      e.MapLeft mapper = Except.ok out → Reachable out
  /-- What `MapRight` returns on a reachable instance is reachable. -/
  | ofMapRight {L R : Type} [GoZero L] [GoZero R] {e out : Either L R}
      {mapper : R → Either L R} :
      Reachable e → (∀ y, Reachable (mapper y)) →
      e.MapRight mapper = Except.ok out → Reachable out

/-! ## Construction and inspection -/

/-- C1 (exclusivity): `Left(v)` has `IsLeft() = true` and `IsRight() = false`, `Right(r)`
has `IsLeft() = false` and `IsRight() = true`; so the two predicates differ on every
instance built by a constructor. -/
theorem constructors_exclusive {L R : Type} [GoZero L] [GoZero R] (v : L) (r : R) :
    ((Left v : Either L R).IsLeft = true ∧ (Left v : Either L R).IsRight = false) ∧
    ((Right r : Either L R).IsLeft = false ∧ (Right r : Either L R).IsRight = true) ∧
    (Left v : Either L R).IsLeft ≠ (Left v : Either L R).IsRight ∧
    (Right r : Either L R).IsLeft ≠ (Right r : Either L R).IsRight := by
  simp [Left, Right, Either.IsLeft, Either.IsRight]

/-- C2 (round trip of construction and inspection): `Left(v).Left()` is `(v, true)` and
`Left(v).Right()` is `(zero value of R, false)`; `Right(r).Right()` is `(r, true)` and
`Right(r).Left()` is `(zero value of L, false)`. -/
theorem construct_inspect_roundtrip {L R : Type} [GoZero L] [GoZero R] (v : L) (r : R) :
    (Left v : Either L R).Left = (v, true) ∧
    (Left v : Either L R).Right = ((GoZero.zero : R), false) ∧
    (Right r : Either L R).Right = (r, true) ∧
    (Right r : Either L R).Left = ((GoZero.zero : L), false) := by
  simp [Left, Right, Either.Left, Either.Right, empty]

/-! ## Swap -/

/-- C3 (swap involution): swapping twice an instance built by `Left` or by `Right` gives
back an instance equal to it, flags and payload slots alike. -/
theorem swap_swap_constructed {L R : Type} [GoZero L] [GoZero R] (v : L) (r : R) :
    (Left v : Either L R).Swap.Swap = Left v ∧
    (Right r : Either L R).Swap.Swap = Right r := by
  simp [Left, Right, Either.Swap]

/-- C4 (swap exchanges the variants and keeps the payload): `Left[L,R](v).Swap()` is
`Right[R,L](v)` and `Right[L,R](r).Swap()` is `Left[R,L](r)`; the results are populated on
the other side with the same payload, as for `Left[int,string](42)`, whose swap is
Right-populated with payload 42. -/
theorem swap_exchanges_variants {L R : Type} [GoZero L] [GoZero R] (v : L) (r : R) :
    ((Left v : Either L R).Swap = (Right v : Either R L) ∧
      (Right r : Either L R).Swap = (Left r : Either R L)) ∧
    ((Left v : Either L R).Swap.IsRight = true ∧
      (Left v : Either L R).Swap.IsLeft = false ∧
      (Left v : Either L R).Swap.Right = (v, true)) ∧
    ((Right r : Either L R).Swap.IsLeft = true ∧
      (Right r : Either L R).Swap.IsRight = false ∧
      (Right r : Either L R).Swap.Left = (r, true)) ∧
    ((Left 42 : Either Int String).Swap.IsRight = true ∧
      (Left 42 : Either Int String).Swap.IsLeft = false ∧
      (Left 42 : Either Int String).Swap.MustRight = Except.ok 42) := by
  simp [Left, Right, Either.Swap, Either.IsLeft, Either.IsRight, Either.Left, Either.Right,
    Either.MustRight]

/-! ## Accessors -/

/-- C5 (fallback correctness): `Left(v).LeftOrElse(fallback)` is `v` and
`Right(r).LeftOrElse(fallback)` is `fallback`; `Right(r).RightOrElse(fb)` is `r` and
`Left(v).RightOrElse(fb)` is `fb`. -/
theorem orElse_fallback {L R : Type} [GoZero L] [GoZero R] (v fallback : L) (r fb : R) :
    (Left v : Either L R).LeftOrElse fallback = v ∧
    (Right r : Either L R).LeftOrElse fallback = fallback ∧
    (Right r : Either L R).RightOrElse fb = r ∧
    (Left v : Either L R).RightOrElse fb = fb := by
  simp [Left, Right, Either.LeftOrElse, Either.RightOrElse]

/-- C6 (`LeftOrEmpty` and `RightOrEmpty`): the payload when the side is populated, the zero
value of the side's type otherwise, as a plain value (the functions have no failing
result); for `Left[int,string](42)` they give 42 and the empty string. -/
theorem orEmpty_payload_or_zero {L R : Type} [GoZero L] [GoZero R] (v : L) (r : R) :
    ((Left v : Either L R).LeftOrEmpty = v ∧
      (Left v : Either L R).RightOrEmpty = (GoZero.zero : R)) ∧
    ((Right r : Either L R).RightOrEmpty = r ∧
      (Right r : Either L R).LeftOrEmpty = (GoZero.zero : L)) ∧
    ((Left 42 : Either Int String).LeftOrEmpty = 42 ∧
      (Left 42 : Either Int String).RightOrEmpty = "") := by
  simp [Left, Right, Either.LeftOrEmpty, Either.RightOrEmpty, empty, GoZero.zero]

/-- C7 (fatal-accessor contract): on every value of the struct, `MustLeft()` panics, with
"no such Left value", exactly when the Left flag is not set, and returns a value only when
it is set, that value being the Left payload; likewise `MustRight()` with "no such Right
value". `Left(v).MustLeft()` returns `v` and `Left(v).MustRight()` panics. -/
theorem must_accessors_contract {L R : Type} [GoZero L] [GoZero R] (e : Either L R)
    (v x : L) (y : R) :
    ((e.MustLeft = Except.error "no such Left value" ↔ e.IsLeft = false) ∧
      (e.MustLeft = Except.ok x ↔ e.IsLeft = true ∧ x = e.left)) ∧
    ((e.MustRight = Except.error "no such Right value" ↔ e.IsRight = false) ∧
      (e.MustRight = Except.ok y ↔ e.IsRight = true ∧ y = e.right)) ∧
    ((Left v : Either L R).MustLeft = Except.ok v ∧
      (Left v : Either L R).MustRight = Except.error "no such Right value") := by
  cases hl : e.isLeft <;> cases hr : e.isRight <;>
    simp [Left, Either.MustLeft, Either.MustRight, Either.IsLeft, Either.IsRight,
      eitherMissingLeftValue, eitherMissingRightValue, hl, hr, eq_comm]

/-! ## Dispatch -/

/-- C8 (dispatch exactness of `ForEach`): with callbacks that record their calls in a log,
`Left(v).ForEach` adds exactly the one call `leftCb(v)` and `Right(r).ForEach` exactly the
one call `rightCb(r)`; with arbitrary callbacks the effect on the state is that of this
one call. -/
theorem forEach_dispatch_exact {L R σ : Type} [GoZero L] [GoZero R] (v : L) (r : R)
    (log : List (Call L R)) (leftCb : L → σ → σ) (rightCb : R → σ → σ) (s : σ) :
    ((Left v : Either L R).ForEach recordLeft recordRight log = log ++ [Call.leftCb v] ∧
      (Right r : Either L R).ForEach recordLeft recordRight log = log ++ [Call.rightCb r]) ∧
    ((Left v : Either L R).ForEach recordLeft recordRight [] = [Call.leftCb v] ∧
      (Right r : Either L R).ForEach recordLeft recordRight [] = [Call.rightCb r]) ∧
    ((Left v : Either L R).ForEach leftCb rightCb s = leftCb v s ∧
      (Right r : Either L R).ForEach leftCb rightCb s = rightCb r s) := by
  simp [Left, Right, Either.ForEach, recordLeft, recordRight]

/-! ## Match and the map combinators -/

/-- C9 (`Match` returns the result of the matching handler): `Left(v).Match(onLeft,
onRight)` returns `onLeft(v)` whatever `onRight` is, `Right(r).Match(onLeft, onRight)`
returns `onRight(r)` whatever `onLeft` is, neither panics, and the result may be of the
other variant; `Right[int,string]("err").Match(onLeft, onRight)` is `onRight("err")`. -/
theorem match_matching_handler {L R : Type} [GoZero L] [GoZero R] (v : L) (r : R)
    (onLeft onLeft2 : L → Either L R) (onRight onRight2 : R → Either L R)
    (intLeft : Int → Either Int String) (strRight : String → Either Int String) :
    ((Left v : Either L R).Match onLeft onRight = Except.ok (onLeft v) ∧
      (Right r : Either L R).Match onLeft onRight = Except.ok (onRight r)) ∧
    ((Left v : Either L R).Match onLeft onRight2 = (Left v : Either L R).Match onLeft onRight ∧
      (Right r : Either L R).Match onLeft2 onRight
        = (Right r : Either L R).Match onLeft onRight) ∧
    ((Left v : Either L R).Match (fun _ => Right r) onRight = Except.ok (Right r) ∧
      (Right r : Either L R).Match onLeft (fun _ => Left v) = Except.ok (Left v)) ∧
    (Right "err" : Either Int String).Match intLeft strRight = Except.ok (strRight "err") := by
  simp [Left, Right, Either.Match]

/-- C10 (`MapLeft`): `Left(v).MapLeft(f)` returns `f(v)`; `Right(r).MapLeft(f)` returns
`Right(r)`, equal to the receiver and the same for every `f`; for
`Right[int,string]("err")` the result is Right-populated and carries "err". -/
theorem mapLeft_maps_left_passes_right {L R : Type} [GoZero L] [GoZero R] (v : L) (r : R)
    (f g : L → Either L R) (k : Int → Either Int String) :
    (Left v : Either L R).MapLeft f = Except.ok (f v) ∧
    (Right r : Either L R).MapLeft f = Except.ok (Right r) ∧
    (Right r : Either L R).MapLeft f = (Right r : Either L R).MapLeft g ∧
    ((Right "err" : Either Int String).MapLeft k = Except.ok (Right "err") ∧
      (Right "err" : Either Int String).IsRight = true ∧
      (Right "err" : Either Int String).IsLeft = false ∧
      (Right "err" : Either Int String).MustRight = Except.ok "err") := by
  simp [Left, Right, Either.MapLeft, Either.IsLeft, Either.IsRight, Either.MustRight]

/-- C11 (`MapRight`): `Right(r).MapRight(f)` returns `f(r)`; `Left(v).MapRight(f)` returns
an instance equal to the receiver `Left(v)`, the same for every `f`; for
`e = Left[int,string](42)` the result is `e`. -/
theorem mapRight_maps_right_passes_left {L R : Type} [GoZero L] [GoZero R] (v : L) (r : R)
    (f g : R → Either L R) (k : String → Either Int String) :
    (Right r : Either L R).MapRight f = Except.ok (f r) ∧
    (Left v : Either L R).MapRight f = Except.ok (Left v) ∧
    (Left v : Either L R).MapRight f = (Left v : Either L R).MapRight g ∧
    (Left 42 : Either Int String).MapRight k = Except.ok (Left 42) := by
  simp [Left, Right, Either.MapRight]

/-! ## The invariant I1 -/

/-- The flags of a reachable instance differ: one is set and the other is not. -/
theorem Reachable.flags_differ {L R : Type} [GoZero L] [GoZero R] {e : Either L R}
    (h : Reachable e) : e.isLeft ≠ e.isRight := by
  induction h with
  | ofLeft v => simp [Left]
  | ofRight r => simp [Right]
  | @ofSwap _ _ _ _ e0 _ _ =>
    cases hl : e0.isLeft <;> simp [Either.Swap, Left, Right, hl]
  | ofMatch _ _ _ heq _ ihl ihr =>
    unfold Either.Match at heq
    split at heq
    · cases heq
      exact ihl _
    · split at heq
      · cases heq
        exact ihr _
      · cases heq
  | ofMapLeft _ _ heq _ ihm =>
    unfold Either.MapLeft at heq
    split at heq
    · cases heq
      exact ihm _
    · split at heq
      · cases heq
        simp [Right]
      · cases heq
  | ofMapRight _ _ heq _ ihm =>
    unfold Either.MapRight at heq
    split at heq
    · cases heq
      simp [Left]
    · split at heq
      · cases heq
        exact ihm _
      · cases heq

/-- C12 (invariant I1 on the reachable instances): a reachable instance has exactly one of
the flags `isLeft`, `isRight` set, never both and never neither, and `Match`, `MapLeft` and
`MapRight` return a value on it instead of panicking. -/
theorem reachable_exactly_one_flag {L R : Type} [GoZero L] [GoZero R] (e : Either L R)
    (h : Reachable e) (onLeft : L → Either L R) (onRight : R → Either L R) :
    ((e.isLeft = true ∧ e.isRight = false) ∨ (e.isLeft = false ∧ e.isRight = true)) ∧
    (¬ (e.isLeft = true ∧ e.isRight = true) ∧ ¬ (e.isLeft = false ∧ e.isRight = false)) ∧
    ((∃ out, e.Match onLeft onRight = Except.ok out) ∧
      (∃ out, e.MapLeft onLeft = Except.ok out) ∧
      (∃ out, e.MapRight onRight = Except.ok out)) ∧
    (e.Match onLeft onRight ≠ Except.error "either should be Left or Right" ∧
      e.MapLeft onLeft ≠ Except.error "either should be Left or Right" ∧
      e.MapRight onRight ≠ Except.error "either should be Left or Right") := by
  have hd := h.flags_differ
  cases hl : e.isLeft <;> cases hr : e.isRight <;>
    simp [Either.Match, Either.MapLeft, Either.MapRight, hl, hr] at hd ⊢

/-- Witness of C12 at the swap of `Left[int,string](42)`, a reachable instance of
`Either[string,int]`. -/
theorem reachable_exactly_one_flag_witness :
    Reachable (Left 42 : Either Int String).Swap ∧
    (((Left 42 : Either Int String).Swap.isLeft = true ∧
        (Left 42 : Either Int String).Swap.isRight = false) ∨
      ((Left 42 : Either Int String).Swap.isLeft = false ∧
        (Left 42 : Either Int String).Swap.isRight = true)) ∧
    (¬ ((Left 42 : Either Int String).Swap.isLeft = true ∧
        (Left 42 : Either Int String).Swap.isRight = true) ∧
      ¬ ((Left 42 : Either Int String).Swap.isLeft = false ∧
        (Left 42 : Either Int String).Swap.isRight = false)) ∧
    ((∃ out, (Left 42 : Either Int String).Swap.Match (fun s => Left s) (fun n => Right n)
        = Except.ok out) ∧
      (∃ out, (Left 42 : Either Int String).Swap.MapLeft (fun s => Left s) = Except.ok out) ∧
      (∃ out, (Left 42 : Either Int String).Swap.MapRight (fun n => Right n)
        = Except.ok out)) ∧
    ((Left 42 : Either Int String).Swap.Match (fun s => Left s) (fun n => Right n)
        ≠ Except.error "either should be Left or Right" ∧
      (Left 42 : Either Int String).Swap.MapLeft (fun s => Left s)
        ≠ Except.error "either should be Left or Right" ∧
      (Left 42 : Either Int String).Swap.MapRight (fun n => Right n)
        ≠ Except.error "either should be Left or Right") :=
  ⟨Reachable.ofSwap (Reachable.ofLeft 42),
    reachable_exactly_one_flag _ (Reachable.ofSwap (Reachable.ofLeft 42)) _ _⟩

/-- Counterexample to C13: the zero value of `Either[int,string]` is a value of the type
with `IsLeft() = false` and `IsRight() = false`, so it is neither Left-populated nor
Right-populated. -/
theorem zero_value_neither_populated :
    ((GoZero.zero : Either Int String).IsLeft = false ∧
      (GoZero.zero : Either Int String).IsRight = false) ∧
    ¬ ((GoZero.zero : Either Int String).IsLeft = true ∨
      (GoZero.zero : Either Int String).IsRight = true) := by
  decide

/-- C13, amended: every instance built by `Left` or by `Right` is Left-populated or
Right-populated, never with `IsLeft() = false` and `IsRight() = false`; the struct type
itself has an empty state, its zero value, on which both predicates are false. -/
theorem constructed_populated_zero_empty {L R : Type} [GoZero L] [GoZero R] (v : L) (r : R) :
    (((Left v : Either L R).IsLeft = true ∨ (Left v : Either L R).IsRight = true) ∧
      ¬ ((Left v : Either L R).IsLeft = false ∧ (Left v : Either L R).IsRight = false)) ∧
    (((Right r : Either L R).IsLeft = true ∨ (Right r : Either L R).IsRight = true) ∧
      ¬ ((Right r : Either L R).IsLeft = false ∧ (Right r : Either L R).IsRight = false)) ∧
    ((GoZero.zero : Either L R).IsLeft = false ∧
      (GoZero.zero : Either L R).IsRight = false) := by
  simp [Left, Right, Either.IsLeft, Either.IsRight, GoZero.zero]

/-! ## The failing branch -/

/-- C14 (InvalidState exactly in the neither-variant state): on every value of the struct,
each of `Match`, `MapLeft` and `MapRight` panics with "either should be Left or Right" if
and only if neither flag is set, and returns a value if and only if some flag is set. -/
theorem invalid_state_iff_neither {L R : Type} [GoZero L] [GoZero R] (e : Either L R)
    (onLeft f : L → Either L R) (onRight g : R → Either L R) :
    ((e.Match onLeft onRight = Except.error "either should be Left or Right"
          ↔ e.isLeft = false ∧ e.isRight = false) ∧
      ((∃ out, e.Match onLeft onRight = Except.ok out)
          ↔ ¬ (e.isLeft = false ∧ e.isRight = false))) ∧
    ((e.MapLeft f = Except.error "either should be Left or Right"
          ↔ e.isLeft = false ∧ e.isRight = false) ∧
      ((∃ out, e.MapLeft f = Except.ok out)
          ↔ ¬ (e.isLeft = false ∧ e.isRight = false))) ∧
    ((e.MapRight g = Except.error "either should be Left or Right"
          ↔ e.isLeft = false ∧ e.isRight = false) ∧
      ((∃ out, e.MapRight g = Except.ok out)
          ↔ ¬ (e.isLeft = false ∧ e.isRight = false))) := by
  cases hl : e.isLeft <;> cases hr : e.isRight <;>
    simp [Either.Match, Either.MapLeft, Either.MapRight, eitherShouldBeLeftOrRight, hl, hr]

/-! ## Chains of map calls -/

/-- C15 (short-circuit propagation): any finite chain of `MapLeft` calls on `Right(r)`
returns `Right(r)`, and any finite chain of `MapRight` calls on `Left(v)` returns
`Left(v)`, whatever the mappers are. -/
theorem map_chain_short_circuit {L R : Type} [GoZero L] [GoZero R] (v : L) (r : R)
    (fs : List (L → Either L R)) (gs : List (R → Either L R)) :
    mapLeftChain (Right r : Either L R) fs = Except.ok (Right r) ∧
    mapRightChain (Left v : Either L R) gs = Except.ok (Left v) := by
  constructor
  · induction fs with
    | nil => rfl
    | cons f fs ih =>
      have h : (Right r : Either L R).MapLeft f = Except.ok (Right r) := by
        simp [Either.MapLeft, Right]
      simp only [mapLeftChain, h]
      exact ih
  · induction gs with
    | nil => rfl
    | cons g gs ih =>
      have h : (Left v : Either L R).MapRight g = Except.ok (Left v) := by
        simp [Either.MapRight, Left]
      simp only [mapRightChain, h]
      exact ih

/-- C16 (`ForEach` in the neither-variant state): on a value with no flag set `ForEach`
calls neither callback (the log of calls and any other state are left as they were) and
has no failing result, whereas `Match`, `MapLeft` and `MapRight` panic on it. -/
theorem forEach_neither_calls_nothing {L R σ : Type} [GoZero L] [GoZero R] (e : Either L R)
    (hl : e.isLeft = false) (hr : e.isRight = false) (log : List (Call L R))
    (leftCb : L → σ → σ) (rightCb : R → σ → σ) (s : σ)
    (onLeft : L → Either L R) (onRight : R → Either L R) :
    (e.ForEach recordLeft recordRight log = log ∧ e.ForEach leftCb rightCb s = s) ∧
    (e.Match onLeft onRight = Except.error "either should be Left or Right" ∧
      e.MapLeft onLeft = Except.error "either should be Left or Right" ∧
      e.MapRight onRight = Except.error "either should be Left or Right") := by
  simp [Either.ForEach, Either.Match, Either.MapLeft, Either.MapRight,
    eitherShouldBeLeftOrRight, hl, hr]

/-- Witness of C16 at the zero value of `Either[int,string]`, with callbacks that count
their calls. -/
theorem forEach_neither_calls_nothing_witness :
    ((GoZero.zero : Either Int String).isLeft = false ∧
      (GoZero.zero : Either Int String).isRight = false) ∧
    (((GoZero.zero : Either Int String).ForEach recordLeft recordRight [] = [] ∧
        (GoZero.zero : Either Int String).ForEach (fun _ n => n + 1) (fun _ n => n + 1) 0
          = 0) ∧
      ((GoZero.zero : Either Int String).Match (fun n => Left n) (fun t => Right t)
          = Except.error "either should be Left or Right" ∧
        (GoZero.zero : Either Int String).MapLeft (fun n => Left n)
          = Except.error "either should be Left or Right" ∧
        (GoZero.zero : Either Int String).MapRight (fun t => Right t)
          = Except.error "either should be Left or Right")) :=
  ⟨⟨rfl, rfl⟩, forEach_neither_calls_nothing (GoZero.zero : Either Int String) rfl rfl []
    (fun _ n => n + 1) (fun _ n => n + 1) (0 : Nat) (fun n => Left n) (fun t => Right t)⟩

/-! ## Laws of the map combinators -/

/-- C17 (`MapLeft` and `MapRight` are special cases of `Match`): on every value of the
struct, `e.MapLeft(f)` is `e.Match(f, Right)` and `e.MapRight(g)` is `e.Match(Left, g)`;
in the neither-variant state both sides panic with the same error. -/
theorem map_is_match {L R : Type} [GoZero L] [GoZero R] (e : Either L R)
    (f : L → Either L R) (g : R → Either L R) :
    (e.MapLeft f = e.Match f (fun r => Right r) ∧
      e.MapRight g = e.Match (fun v => Left v) g) ∧
    ((GoZero.zero : Either L R).MapLeft f = Except.error "either should be Left or Right" ∧
      (GoZero.zero : Either L R).Match f (fun r => Right r)
        = Except.error "either should be Left or Right" ∧
      (GoZero.zero : Either L R).MapRight g = Except.error "either should be Left or Right" ∧
      (GoZero.zero : Either L R).Match (fun v => Left v) g
        = Except.error "either should be Left or Right") := by
  simp [Either.MapLeft, Either.MapRight, Either.Match, GoZero.zero,
    eitherShouldBeLeftOrRight]

/-- C18 (chaining is associative): for `e` built by `Left` or by `Right`,
`e.MapLeft(f).MapLeft(g)` is `e.MapLeft(fun x => f(x).MapLeft(g))`, and likewise for
`MapRight`; a panic of the first call on the left-hand side ends the chain, and the inner
call on the right-hand side may panic, so that mapper is given to `MapLeftE`, which is
`MapLeft` on mappers that do not panic. -/
theorem map_chain_assoc {L R : Type} [GoZero L] [GoZero R] (v : L) (r : R) (e : Either L R)
    (f g : L → Either L R) (h k : R → Either L R) :
    (Except.bind ((Left v : Either L R).MapLeft f) (fun next => next.MapLeft g)
        = (Left v : Either L R).MapLeftE (fun x => (f x).MapLeft g) ∧
      Except.bind ((Right r : Either L R).MapLeft f) (fun next => next.MapLeft g)
        = (Right r : Either L R).MapLeftE (fun x => (f x).MapLeft g)) ∧
    (Except.bind ((Left v : Either L R).MapRight h) (fun next => next.MapRight k)
        = (Left v : Either L R).MapRightE (fun y => (h y).MapRight k) ∧
      Except.bind ((Right r : Either L R).MapRight h) (fun next => next.MapRight k)
        = (Right r : Either L R).MapRightE (fun y => (h y).MapRight k)) ∧
    (e.MapLeftE (fun x => Except.ok (f x)) = e.MapLeft f ∧
      e.MapRightE (fun y => Except.ok (h y)) = e.MapRight h) := by
  simp [Left, Right, Either.MapLeft, Either.MapRight, Either.MapLeftE, Either.MapRightE,
    Except.bind]

/-- C19 (the constructors are identities): for `e` built by `Left` or by `Right`,
`e.MapLeft(Left)`, `e.MapRight(Right)` and `e.Match(Left, Right)` all return `e`. -/
theorem map_constructors_identity {L R : Type} [GoZero L] [GoZero R] (v : L) (r : R) :
    ((Left v : Either L R).MapLeft (fun x => Left x) = Except.ok (Left v) ∧
      (Right r : Either L R).MapLeft (fun x => Left x) = Except.ok (Right r)) ∧
    ((Left v : Either L R).MapRight (fun y => Right y) = Except.ok (Left v) ∧
      (Right r : Either L R).MapRight (fun y => Right y) = Except.ok (Right r)) ∧
    ((Left v : Either L R).Match (fun x => Left x) (fun y => Right y) = Except.ok (Left v) ∧
      (Right r : Either L R).Match (fun x => Left x) (fun y => Right y)
        = Except.ok (Right r)) := by
  simp [Left, Right, Either.MapLeft, Either.MapRight, Either.Match]

/-! ## Swap outside the constructed instances -/

/-- C20 (`Swap` treats every value that is not Left-populated as Right-populated): on a
value with `isLeft = false`, `Swap()` returns `Left[R,L](e.right)`, a plain value since
`Swap` has no failing result. For the zero value `z` of `Either[L,R]`, `z.Swap()` is
Left-populated with the zero value of `R`, and `z.Swap().Swap()` is `Right[L,R]` of the
zero value of `R`, which is not `z`. -/
theorem swap_not_left_is_left {L R : Type} [GoZero L] [GoZero R] (e : Either L R)
    (h : e.isLeft = false) :
    (e.Swap = (Left e.right : Either R L) ∧ e.Swap.IsLeft = true ∧ e.Swap.IsRight = false ∧
      e.Swap.MustLeft = Except.ok e.right) ∧
    ((GoZero.zero : Either L R).Swap = (Left (GoZero.zero : R) : Either R L) ∧
      (GoZero.zero : Either L R).Swap.IsLeft = true ∧
      (GoZero.zero : Either L R).Swap.MustLeft = Except.ok (GoZero.zero : R)) ∧
    ((GoZero.zero : Either L R).Swap.Swap = (Right (GoZero.zero : R) : Either L R) ∧
      (GoZero.zero : Either L R).Swap.Swap ≠ (GoZero.zero : Either L R)) := by
  simp [Either.Swap, Left, Right, Either.IsLeft, Either.IsRight, Either.MustLeft,
    GoZero.zero, h]

/-- Witness of C20 at a value of `Either[int,string]` with no flag set and the payload
slots 7 and "x". -/
theorem swap_not_left_is_left_witness :
    ({ isLeft := false, isRight := false, left := 7, right := "x" }
        : Either Int String).isLeft = false ∧
    ((({ isLeft := false, isRight := false, left := 7, right := "x" }
          : Either Int String).Swap = (Left "x" : Either String Int) ∧
        ({ isLeft := false, isRight := false, left := 7, right := "x" }
          : Either Int String).Swap.IsLeft = true ∧
        ({ isLeft := false, isRight := false, left := 7, right := "x" }
          : Either Int String).Swap.IsRight = false ∧
        ({ isLeft := false, isRight := false, left := 7, right := "x" }
          : Either Int String).Swap.MustLeft = Except.ok "x") ∧
      ((GoZero.zero : Either Int String).Swap = (Left "" : Either String Int) ∧
        (GoZero.zero : Either Int String).Swap.IsLeft = true ∧
        (GoZero.zero : Either Int String).Swap.MustLeft = Except.ok "") ∧
      ((GoZero.zero : Either Int String).Swap.Swap = (Right "" : Either Int String) ∧
        (GoZero.zero : Either Int String).Swap.Swap ≠ (GoZero.zero : Either Int String))) :=
  ⟨rfl, swap_not_left_is_left
    ({ isLeft := false, isRight := false, left := 7, right := "x" } : Either Int String) rfl⟩

end Mo
